import Mathlib

/-!
Shallow embedding of the Klipper fan regulation core (fan.py,
temperature_fan.py) over exact rational arithmetic, together with proofs
and refutations of the specified properties.

Python floats are modelled as rationals; Python float truthiness
(`if x:` on a float) is modelled as `x ≠ 0`, and truthiness of the
optional `tach_loss_time` field as `pyTruthy`.
-/

namespace KlipperFan

/-- `FAN_MIN_TIME = 0.100` from fan.py line 8. -/
def FAN_MIN_TIME : ℚ := 1/10

/-- Configuration of a `Fan` (fan.py `Fan.__init__`).  In the source,
`pwm_fan` is set to `True` exactly when an `enable_pin` is configured,
so a single flag models both the 4-wire check and the enable pin. -/
structure FanConfig where
  max_power : ℚ
  kick_start_time : ℚ
  off_below : ℚ
  pwm_fan : Bool
deriving DecidableEq, Repr

/-- Mutable state of a `Fan`: the last requested (unscaled) duty and the
time of the last emitted command (fan.py lines 14-15). -/
structure FanState where
  last_fan_value : ℚ
  last_fan_time : ℚ
deriving DecidableEq, Repr

/-- A scheduled hardware command: either a digital level on the enable
pin (`set_digital`) or a PWM duty (`set_pwm`). -/
inductive Cmd where
  | digital (time : ℚ) (level : Bool)
  | pwm (time : ℚ) (duty : ℚ)
deriving DecidableEq, Repr

/-- Scheduled time of a hardware command. -/
def Cmd.time : Cmd → ℚ
  | digital t _ => t
  | pwm t _ => t

/-- Whether a command is a PWM duty command. -/
def Cmd.isPwm : Cmd → Bool
  | digital _ _ => false
  | pwm _ _ => true

/-- fan.py lines 86-95: 3-wire fans rescale the duty to `0.2 + 0.8*value`
and collapse anything at or under `0.2` to `0`; 4-wire fans pass the
requested duty through unchanged. -/
def Fan.scaled_speed (cfg : FanConfig) (value : ℚ) : ℚ :=
  if cfg.pwm_fan then value
  else
    let fan_speed := 1/5 + 4/5 * value
    if fan_speed ≤ 1/5 then 0 else fan_speed

/-- fan.py lines 86-98: the duty actually sent to the PWM pin --- the
rescaled duty, forced to `0` below `off_below`, scaled by `max_power`
and clamped into `[0, max_power]`. -/
def Fan.fan_speed_calc (cfg : FanConfig) (value : ℚ) : ℚ :=
  let fan_speed := Fan.scaled_speed cfg value
  let fan_speed := if value < cfg.off_below then 0 else fan_speed
  max 0 (min cfg.max_power (fan_speed * cfg.max_power))

/-- fan.py lines 107-108: the guard of the kick-start branch.  The
Python float truthiness tests `fan_speed` and `self.kick_start_time`
are `≠ 0`, and `not self.last_fan_value` is `= 0`. -/
def Fan.kick_applies (cfg : FanConfig) (last_fan_value fan_speed : ℚ) : Prop :=
  fan_speed ≠ 0 ∧ fan_speed < cfg.max_power ∧ cfg.kick_start_time ≠ 0 ∧
    (last_fan_value = 0 ∨ fan_speed - last_fan_value > 1/2)

instance (cfg : FanConfig) (l f : ℚ) : Decidable (Fan.kick_applies cfg l f) := by
  unfold Fan.kick_applies; infer_instance

/-- fan.py lines 84-115, `Fan.set_speed`: returns the updated state and
the list of hardware commands emitted by this call, in emission order. -/
def Fan.set_speed (cfg : FanConfig) (s : FanState) (print_time value : ℚ) :
    FanState × List Cmd :=
  let fan_speed := Fan.fan_speed_calc cfg value
  if value = s.last_fan_value then (s, [])
  else
    let print_time := max (s.last_fan_time + FAN_MIN_TIME) print_time
    let enable_cmds : List Cmd :=
      if cfg.pwm_fan then
        if value > 0 ∧ s.last_fan_value = 0 then [Cmd.digital print_time true]
        else if value = 0 ∧ s.last_fan_value > 0 then [Cmd.digital print_time false]
        else []
      else []
    if Fan.kick_applies cfg s.last_fan_value fan_speed then
      (⟨value, print_time + cfg.kick_start_time⟩,
        enable_cmds ++ [Cmd.pwm print_time cfg.max_power,
                        Cmd.pwm (print_time + cfg.kick_start_time) fan_speed])
    else
      (⟨value, print_time⟩, enable_cmds ++ [Cmd.pwm print_time fan_speed])

/-- A sequence of `set_speed` calls `(print_time, value)`, returning the
final state and the commands emitted by each call, grouped per call. -/
def Fan.runCalls (cfg : FanConfig) : FanState → List (ℚ × ℚ) → FanState × List (List Cmd)
  | s, [] => (s, [])
  | s, (t, v) :: rest =>
    let r := Fan.set_speed cfg s t v
    let r2 := Fan.runCalls cfg r.1 rest
    (r2.1, r.2 :: r2.2)

/-- Configuration of a `FanTachometer` (fan.py lines 154-181). -/
structure TachConfig where
  ppr : ℕ
  tach_loss_interval : ℚ
  warning_repeat_interval : ℚ
deriving DecidableEq, Repr

/-- Python float truthiness of the optional `tach_loss_time` field:
`None` and `0.0` are falsy, any other float is truthy. -/
def pyTruthy : Option ℚ → Bool
  | none => false
  | some x => x != 0

/-- fan.py lines 200-214, the tachometer part of
`FanTachometer.get_status`: one sample of the stall-fault state machine.
Inputs are the sample time, the measured pulse frequency and the fan's
`last_fan_value`; the result is the new `tach_loss_time` and whether
`tach_loss_action` was invoked on this sample. -/
def FanTachometer.sample (cfg : TachConfig) (tach_loss_time : Option ℚ)
    (eventtime freq fan_value : ℚ) : Option ℚ × Bool :=
  let rpm := freq * 30 / (cfg.ppr : ℚ)
  let t1 := if rpm > 0 ∧ pyTruthy tach_loss_time then none else tach_loss_time
  if rpm = 0 ∧ fan_value > 0 then
    if !pyTruthy t1 then (some eventtime, false)
    else if eventtime - t1.getD 0 > cfg.tach_loss_interval then (t1, true)
    else (t1, false)
  else (t1, false)

/-- A sequence of tachometer samples `(eventtime, freq, fan_value)`:
final `tach_loss_time` and the times at which `tach_loss_action` fired. -/
def FanTachometer.run (cfg : TachConfig) :
    Option ℚ → List (ℚ × ℚ × ℚ) → Option ℚ × List ℚ
  | loss, [] => (loss, [])
  | loss, (e, f, v) :: rest =>
    let r := FanTachometer.sample cfg loss e f v
    let r2 := FanTachometer.run cfg r.1 rest
    (r2.1, (if r.2 then [e] else []) ++ r2.2)

/-- Well-formedness of the `tach_loss_time` field: it is `None` or a
nonzero timestamp.  This holds in every state reachable from
initialization through samples taken at nonzero event times (a sample
at event time `0.0` would store the falsy float `0.0`). -/
def lossWF (loss : Option ℚ) : Prop := loss = none ∨ ∃ h, h ≠ 0 ∧ loss = some h

/-- Warning-policy state of a `FanTachometer` (fan.py lines 142-143).
`warning_issued` is initialized to `False` and --- in the source --- is
never assigned anywhere else. -/
structure WarnState where
  last_warning_time : ℚ
  warning_issued : Bool
deriving DecidableEq, Repr

/-- fan.py lines 188-198, `FanTachometer.warning`: returns the new state
and whether a warning was emitted.  `not self.last_warning_time` is the
float truthiness test `= 0`.  Note that the source never sets
`warning_issued`, so the state's flag is passed through unchanged. -/
def FanTachometer.warning (cfg : TachConfig) (s : WarnState) (eventtime : ℚ) :
    WarnState × Bool :=
  if cfg.warning_repeat_interval = 0 ∧ s.warning_issued then (s, false)
  else
    let interval := eventtime - s.last_warning_time
    if s.last_warning_time = 0 ∨ interval ≥ cfg.warning_repeat_interval then
      ({ last_warning_time := eventtime, warning_issued := s.warning_issued }, true)
    else (s, false)

/-- `MAX_FAN_TIME = 5.0` from temperature_fan.py line 18. -/
def MAX_FAN_TIME : ℚ := 5

/-- `AMBIENT_TEMP = 25.` from temperature_fan.py line 19. -/
def AMBIENT_TEMP : ℚ := 25

/-- `MAX_TEMP_BUFFER = .8` from temperature_fan.py line 21. -/
def MAX_TEMP_BUFFER : ℚ := 4/5

/-- Configuration of a `TemperatureFan` (temperature_fan.py
`TemperatureFan.__init__`).  `speed_delay` is the sensor's report time
delta. -/
structure TFConfig where
  min_temp : ℚ
  max_temp : ℚ
  min_temp_cutoff : ℚ
  target_temp_conf : ℚ
  speed_delay : ℚ
  fan : FanConfig
deriving DecidableEq, Repr

/-- Mutable state of a `TemperatureFan`, with the embedded `Fan` state. -/
structure TFState where
  target_temp : ℚ
  min_speed : ℚ
  max_speed : ℚ
  last_temp : ℚ
  next_speed_time : ℚ
  last_speed_value : ℚ
  fan : FanState
deriving DecidableEq, Repr

/-- temperature_fan.py lines 83-97, `TemperatureFan.set_speed`: clamp
the requested value, suppress insignificant updates, then forward to
`Fan.set_speed` at `read_time + speed_delay`. -/
def TemperatureFan.set_speed (cfg : TFConfig) (s : TFState) (read_time value : ℚ) :
    TFState × List Cmd :=
  let value := if value ≤ 0 then 0 else if value < s.min_speed then s.min_speed else value
  let value := if s.target_temp ≤ 0 then 0 else value
  if (read_time < s.next_speed_time ∨ s.last_speed_value = 0) ∧
      |value - s.last_speed_value| < 1/20 then
    (s, [])
  else
    let speed_time := read_time + cfg.speed_delay
    let r := Fan.set_speed cfg.fan s.fan speed_time value
    ({ s with next_speed_time := speed_time + 3/4 * MAX_FAN_TIME,
              last_speed_value := value, fan := r.1 }, r.2)

/-- temperature_fan.py lines 127-132, `TemperatureFan.set_temp`: a zero
target is always accepted (float truthiness of `degrees`); an error
leaves the object as it was, otherwise `target_temp` is assigned. -/
def TemperatureFan.set_temp (cfg : TFConfig) (s : TFState) (degrees : ℚ) :
    TFState × Option String :=
  if degrees ≠ 0 ∧ (degrees < cfg.min_temp ∨ degrees > cfg.max_temp) then
    (s, some "Requested temperature out of range")
  else ({ s with target_temp := degrees }, none)

/-- temperature_fan.py lines 134-139, `TemperatureFan.set_min_speed`. -/
def TemperatureFan.set_min_speed (s : TFState) (speed : ℚ) :
    TFState × Option String :=
  if speed ≠ 0 ∧ (speed < 0 ∨ speed > 1) then
    (s, some "Requested min speed out of range")
  else ({ s with min_speed := speed }, none)

/-- temperature_fan.py lines 141-146, `TemperatureFan.set_max_speed`. -/
def TemperatureFan.set_max_speed (s : TFState) (speed : ℚ) :
    TFState × Option String :=
  if speed ≠ 0 ∧ (speed < 0 ∨ speed > 1) then
    (s, some "Requested max speed out of range")
  else ({ s with max_speed := speed }, none)

/-- temperature_fan.py lines 115-125,
`TemperatureFan.cmd_SET_TEMPERATURE_FAN_TARGET`.  `none` arguments take
the source's gcode defaults (`target_temp_conf`, current `min_speed`,
current `max_speed`).  A raised `command_error` is modelled as
`some message`; as in Python, assignments made before the raise stay in
the returned state. -/
def TemperatureFan.cmd_SET_TEMPERATURE_FAN_TARGET (cfg : TFConfig) (s : TFState)
    (target min_speed_arg max_speed_arg : Option ℚ) : TFState × Option String :=
  let temp := target.getD cfg.target_temp_conf
  match TemperatureFan.set_temp cfg s temp with
  | (s1, some e) => (s1, some e)
  | (s1, none) =>
    let min_speed := min_speed_arg.getD s1.min_speed
    let max_speed := max_speed_arg.getD s1.max_speed
    if min_speed > max_speed then
      (s1, some "Requested min speed is greater than max speed")
    else
      match TemperatureFan.set_min_speed s1 min_speed with
      | (s2, some e) => (s2, some e)
      | (s2, none) => TemperatureFan.set_max_speed s2 max_speed

/-- PID gains and derived values of a `ControlPID` (temperature_fan.py
lines 183-195).  `Kp`, `Ki`, `Kd` are the stored values (already divided
by `PID_PARAM_BASE`); `temp_integ_max` is `max_speed / Ki` when `Ki` is
nonzero, `0` otherwise. -/
structure PIDConfig where
  Kp : ℚ
  Ki : ℚ
  Kd : ℚ
  min_deriv_time : ℚ
  temp_integ_max : ℚ
deriving DecidableEq, Repr

/-- PID memory of a `ControlPID` (temperature_fan.py lines 192-195). -/
structure PIDState where
  prev_temp : ℚ
  prev_temp_time : ℚ
  prev_temp_deriv : ℚ
  prev_temp_integ : ℚ
deriving DecidableEq, Repr

/-- temperature_fan.py lines 202-208: the (possibly low-pass blended)
temperature derivative of a PID sample. -/
def ControlPID.temp_deriv (pcfg : PIDConfig) (s : PIDState) (read_time temp : ℚ) : ℚ :=
  let time_diff := read_time - s.prev_temp_time
  let temp_diff := temp - s.prev_temp
  if time_diff ≥ pcfg.min_deriv_time then temp_diff / time_diff
  else (s.prev_temp_deriv * (pcfg.min_deriv_time - time_diff) + temp_diff) /
    pcfg.min_deriv_time

/-- temperature_fan.py lines 210-212: the clamped accumulated
temperature error of a PID sample. -/
def ControlPID.temp_integ (pcfg : PIDConfig) (s : PIDState)
    (target_temp read_time temp : ℚ) : ℚ :=
  max 0 (min pcfg.temp_integ_max
    (s.prev_temp_integ + (target_temp - temp) * (read_time - s.prev_temp_time)))

/-- temperature_fan.py line 214: the unclamped PID control output. -/
def ControlPID.co (pcfg : PIDConfig) (s : PIDState) (target_temp read_time temp : ℚ) : ℚ :=
  pcfg.Kp * (target_temp - temp) +
    pcfg.Ki * ControlPID.temp_integ pcfg s target_temp read_time temp -
    pcfg.Kd * ControlPID.temp_deriv pcfg s read_time temp

/-- temperature_fan.py line 215: the control output bounded into
`[0, max_speed]`. -/
def ControlPID.bounded_co (pcfg : PIDConfig) (s : PIDState)
    (max_speed target_temp read_time temp : ℚ) : ℚ :=
  max 0 (min max_speed (ControlPID.co pcfg s target_temp read_time temp))

/-- temperature_fan.py lines 196-224, `ControlPID.temperature_callback`:
returns the updated fan object state, the emitted hardware commands and
the updated PID memory.  Below `min_temp_cutoff` the speed is forced to
`0` and the PID memory is left untouched. -/
def ControlPID.temperature_callback (cfg : TFConfig) (pcfg : PIDConfig)
    (tf : TFState) (s : PIDState) (read_time temp : ℚ) :
    TFState × List Cmd × PIDState :=
  if temp < cfg.min_temp_cutoff then
    let r := TemperatureFan.set_speed cfg tf read_time 0
    (r.1, r.2, s)
  else
    let target_temp := tf.target_temp
    let temp_deriv := ControlPID.temp_deriv pcfg s read_time temp
    let temp_integ := ControlPID.temp_integ pcfg s target_temp read_time temp
    let co := ControlPID.co pcfg s target_temp read_time temp
    let bounded_co := ControlPID.bounded_co pcfg s tf.max_speed target_temp read_time temp
    let r := TemperatureFan.set_speed cfg tf read_time
      (max tf.min_speed (tf.max_speed - bounded_co))
    (r.1, r.2,
      { prev_temp := temp, prev_temp_time := read_time, prev_temp_deriv := temp_deriv,
        prev_temp_integ := if co = bounded_co then temp_integ else s.prev_temp_integ })

/-- The slope mapping chosen by the `slope` config option.  The `log`
variant uses the transcendental `math.log` and is outside the rational
model; no claim depends on it. -/
inductive SlopeKind where
  | linear
  | exponential
deriving DecidableEq, Repr

/-- Configuration of a `ControlSlope` as resolved by its constructor
(temperature_fan.py lines 232-249). -/
structure SlopeConfig where
  hysteresis_margin : ℚ
  min_speed : ℚ
  min_temp_cutoff : ℚ
  min_temp : ℚ
  max_temp : ℚ
  algo : SlopeKind
deriving DecidableEq, Repr

/-- temperature_fan.py lines 232-249, `ControlSlope.__init__`: snapshot
`min_speed` and `min_temp_cutoff`, buffer `max_temp` by
`MAX_TEMP_BUFFER`, and raise an unrealistically low `min_temp` to
room-ambient or the cutoff. -/
def ControlSlope.init (cfg : TFConfig) (tf_min_speed : ℚ) (algo : SlopeKind) : SlopeConfig :=
  let min_temp :=
    if cfg.min_temp < AMBIENT_TEMP ∨ cfg.min_temp < cfg.min_temp_cutoff then
      if cfg.min_temp_cutoff > AMBIENT_TEMP then cfg.min_temp_cutoff else AMBIENT_TEMP
    else cfg.min_temp
  { hysteresis_margin := 1/2, min_speed := tf_min_speed,
    min_temp_cutoff := cfg.min_temp_cutoff, min_temp := min_temp,
    max_temp := cfg.max_temp * MAX_TEMP_BUFFER, algo := algo }

/-- temperature_fan.py lines 262-270, `ControlSlope.linear`. -/
def ControlSlope.linear (c : SlopeConfig) (cfg : TFConfig) (tf : TFState)
    (read_time temp : ℚ) : TFState × List Cmd :=
  let proportion := (temp - c.min_temp) / (c.max_temp - c.min_temp)
  let speed := (tf.max_speed - tf.min_speed) * proportion
  if speed > c.min_speed then TemperatureFan.set_speed cfg tf read_time speed
  else TemperatureFan.set_speed cfg tf read_time c.min_speed

/-- temperature_fan.py lines 285-293, `ControlSlope.exponential`. -/
def ControlSlope.exponential (c : SlopeConfig) (cfg : TFConfig) (tf : TFState)
    (read_time temp : ℚ) : TFState × List Cmd :=
  let normalized_temp := (temp - c.min_temp) / (c.max_temp - c.min_temp)
  let speed := (tf.max_speed - tf.min_speed) * normalized_temp ^ 2
  if speed > c.min_speed then TemperatureFan.set_speed cfg tf read_time speed
  else TemperatureFan.set_speed cfg tf read_time c.min_speed

/-- Python `math.trunc`: truncation toward zero. -/
def pytrunc (q : ℚ) : ℤ := if 0 ≤ q then ⌊q⌋ else ⌈q⌉

/-- temperature_fan.py lines 251-260,
`ControlSlope.temperature_callback`: below the hysteresis band force the
fan off; above it clamp the temperature into `[min_temp, max_temp]`,
overwrite the public `target_temp` with the clamped temperature
truncated to one decimal, and evaluate the selected mapping; inside the
band do nothing. -/
def ControlSlope.temperature_callback (c : SlopeConfig) (cfg : TFConfig) (tf : TFState)
    (read_time temp : ℚ) : TFState × List Cmd :=
  if temp < cfg.min_temp_cutoff - c.hysteresis_margin then
    TemperatureFan.set_speed cfg tf read_time 0
  else if temp > cfg.min_temp_cutoff + c.hysteresis_margin then
    let temp := max c.min_temp (min temp c.max_temp)
    let tf := { tf with target_temp := (pytrunc (temp * 10) : ℚ) / 10 }
    match c.algo with
    | .linear => ControlSlope.linear c cfg tf read_time temp
    | .exponential => ControlSlope.exponential c cfg tf read_time temp
  else (tf, [])

/-- temperature_fan.py lines 98-100,
`TemperatureFan.temperature_callback` dispatching to a slope
controller: `last_temp` is recorded before the control callback runs. -/
def TemperatureFan.temperature_callback_slope (c : SlopeConfig) (cfg : TFConfig)
    (tf : TFState) (read_time temp : ℚ) : TFState × List Cmd :=
  ControlSlope.temperature_callback c cfg { tf with last_temp := temp } read_time temp

/-- Python `round` (banker's rounding) of a rational to an integer. -/
def roundHalfEven (q : ℚ) : ℤ :=
  let f := ⌊q⌋
  let frac := q - f
  if frac < 1/2 then f
  else if 1/2 < frac then f + 1
  else if f % 2 = 0 then f else f + 1

/-- Python `round(x, 2)`. -/
def pyround2 (q : ℚ) : ℚ := (roundHalfEven (q * 100) : ℚ) / 100

/-- The fields of `TemperatureFan.get_status` (temperature_fan.py lines
108-112) that the core computes itself (`rpm` comes from the
tachometer and is reported separately by `FanTachometer.sample`). -/
structure TFStatus where
  speed : ℚ
  temperature : ℚ
  target : ℚ
deriving DecidableEq, Repr

/-- temperature_fan.py lines 108-112, `TemperatureFan.get_status`. -/
def TemperatureFan.get_status (tf : TFState) : TFStatus :=
  { speed := tf.fan.last_fan_value, temperature := pyround2 tf.last_temp,
    target := tf.target_temp }

/-! ## Helper lemmas about `Fan.set_speed` -/

theorem set_speed_last_value (cfg : FanConfig) (s : FanState) (pt v : ℚ) :
    (Fan.set_speed cfg s pt v).1.last_fan_value = v := by
  by_cases h : v = s.last_fan_value
  · simp [Fan.set_speed, h]
  · by_cases hk : Fan.kick_applies cfg s.last_fan_value (Fan.fan_speed_calc cfg v) <;>
      simp [Fan.set_speed, h, hk]

theorem set_speed_time_lb (cfg : FanConfig) (s : FanState) (pt v : ℚ)
    (hks : 0 ≤ cfg.kick_start_time) :
    ∀ c ∈ (Fan.set_speed cfg s pt v).2, s.last_fan_time + FAN_MIN_TIME ≤ c.time := by
  intro c hc
  by_cases h : v = s.last_fan_value
  · simp [Fan.set_speed, h] at hc
  · have hbase : s.last_fan_time + FAN_MIN_TIME ≤
        max (s.last_fan_time + FAN_MIN_TIME) pt := le_max_left _ _
    by_cases hk : Fan.kick_applies cfg s.last_fan_value (Fan.fan_speed_calc cfg v)
    · simp only [Fan.set_speed, h, hk, if_true, if_false, if_neg, if_pos,
        List.mem_append, List.mem_cons, List.not_mem_nil, or_false,
        not_false_eq_true] at hc
      rcases hc with hc | hc | hc
      · split_ifs at hc <;> simp only [List.mem_cons, List.not_mem_nil, or_false] at hc <;>
          simp [hc, Cmd.time, hbase]
      · simp [hc, Cmd.time, hbase]
      · simp only [hc, Cmd.time]; linarith [hbase]
    · simp only [Fan.set_speed, h, hk, if_true, if_false, if_neg, if_pos,
        List.mem_append, List.mem_cons, List.not_mem_nil, or_false,
        not_false_eq_true] at hc
      rcases hc with hc | hc
      · split_ifs at hc <;> simp only [List.mem_cons, List.not_mem_nil, or_false] at hc <;>
          simp [hc, Cmd.time, hbase]
      · simp [hc, Cmd.time, hbase]

theorem set_speed_time_mono (cfg : FanConfig) (s : FanState) (pt v : ℚ)
    (hks : 0 ≤ cfg.kick_start_time) :
    s.last_fan_time ≤ (Fan.set_speed cfg s pt v).1.last_fan_time := by
  by_cases h : v = s.last_fan_value
  · simp [Fan.set_speed, h]
  · have hbase : s.last_fan_time ≤ max (s.last_fan_time + FAN_MIN_TIME) pt := by
      have := le_max_left (s.last_fan_time + FAN_MIN_TIME) pt
      have h10 : (0:ℚ) ≤ FAN_MIN_TIME := by norm_num [FAN_MIN_TIME]
      linarith
    by_cases hk : Fan.kick_applies cfg s.last_fan_value (Fan.fan_speed_calc cfg v) <;>
      simp only [Fan.set_speed, h, hk, if_true, if_false, if_neg, if_pos,
        not_false_eq_true] <;> linarith

theorem set_speed_time_ub (cfg : FanConfig) (s : FanState) (pt v : ℚ)
    (hks : 0 ≤ cfg.kick_start_time) :
    ∀ c ∈ (Fan.set_speed cfg s pt v).2, c.time ≤ (Fan.set_speed cfg s pt v).1.last_fan_time := by
  intro c hc
  by_cases h : v = s.last_fan_value
  · simp [Fan.set_speed, h] at hc
  · by_cases hk : Fan.kick_applies cfg s.last_fan_value (Fan.fan_speed_calc cfg v)
    · simp only [Fan.set_speed, h, hk, if_true, if_false, if_neg, if_pos,
        List.mem_append, List.mem_cons, List.not_mem_nil, or_false,
        not_false_eq_true] at hc ⊢
      rcases hc with hc | hc | hc
      · split_ifs at hc <;> simp only [List.mem_cons, List.not_mem_nil, or_false] at hc <;>
          simp only [hc, Cmd.time] <;> linarith
      · simp only [hc, Cmd.time]; linarith
      · simp [hc, Cmd.time]
    · simp only [Fan.set_speed, h, hk, if_true, if_false, if_neg, if_pos,
        List.mem_append, List.mem_cons, List.not_mem_nil, or_false,
        not_false_eq_true] at hc ⊢
      rcases hc with hc | hc
      · split_ifs at hc <;> simp only [List.mem_cons, List.not_mem_nil, or_false] at hc <;>
          simp only [hc, Cmd.time] <;> linarith
      · simp [hc, Cmd.time]

theorem runCalls_time_lb (cfg : FanConfig) (reqs : List (ℚ × ℚ)) :
    ∀ s : FanState, 0 ≤ cfg.kick_start_time →
      ∀ g ∈ (Fan.runCalls cfg s reqs).2, ∀ c ∈ g, s.last_fan_time + FAN_MIN_TIME ≤ c.time := by
  induction reqs with
  | nil => intro s _ g hg; simp [Fan.runCalls] at hg
  | cons req rest ih =>
    intro s hks g hg c hc
    obtain ⟨t, v⟩ := req
    simp only [Fan.runCalls, List.mem_cons] at hg
    rcases hg with hg | hg
    · subst hg; exact set_speed_time_lb cfg s t v hks c hc
    · have h1 := ih (Fan.set_speed cfg s t v).1 hks g hg c hc
      have h2 := set_speed_time_mono cfg s t v hks
      linarith

theorem append_pair_last {α : Type} (e : List α) (a b : α) :
    ∃ pre, e ++ [a, b] = pre ++ [b] := ⟨e ++ [a], by simp⟩

theorem fan_speed_calc_nonneg (cfg : FanConfig) (v : ℚ) :
    0 ≤ Fan.fan_speed_calc cfg v := by
  simp only [Fan.fan_speed_calc]
  exact le_max_left _ _

theorem clamp_scale_le (a m : ℚ) (hm0 : 0 < m) (hm1 : m ≤ 1) :
    max 0 (min m (a * m)) ≤ max 0 a := by
  rcases le_or_lt a 0 with ha | ha
  · have hma : a * m ≤ 0 := mul_nonpos_iff.mpr (Or.inr ⟨ha, hm0.le⟩)
    have h1 : max 0 (min m (a * m)) ≤ max 0 (a * m) :=
      max_le_max le_rfl (min_le_right _ _)
    rw [max_eq_left hma] at h1
    exact h1.trans (le_max_left _ _)
  · have hma : a * m ≤ a := by nlinarith
    exact (max_le_max le_rfl (min_le_right _ _)).trans (max_le_max le_rfl hma)

theorem fan_speed_calc_le (cfg : FanConfig) (v : ℚ)
    (hm0 : 0 < cfg.max_power) (hm1 : cfg.max_power ≤ 1) :
    Fan.fan_speed_calc cfg v ≤
      max 0 (if v < cfg.off_below then 0 else Fan.scaled_speed cfg v) := by
  simp only [Fan.fan_speed_calc]
  exact clamp_scale_le _ _ hm0 hm1

theorem scaled_speed_zero (cfg : FanConfig) : Fan.scaled_speed cfg 0 = 0 := by
  simp [Fan.scaled_speed]

theorem kick_impossible_same_value (cfg : FanConfig) (v : ℚ)
    (hm0 : 0 < cfg.max_power) (hm1 : cfg.max_power ≤ 1) :
    ¬(0 < Fan.fan_speed_calc cfg v ∧ Fan.fan_speed_calc cfg v < cfg.max_power ∧
      0 < cfg.kick_start_time ∧
      (v = 0 ∨ Fan.fan_speed_calc cfg v - v > 1/2)) := by
  rintro ⟨h1, h2, h3, h4⟩
  have hub := fan_speed_calc_le cfg v hm0 hm1
  set sv := if v < cfg.off_below then 0 else Fan.scaled_speed cfg v with hsv_def
  have hsv : 0 < sv := by
    by_contra hle
    push_neg at hle
    rw [max_eq_left hle] at hub
    linarith
  have hfs_le : Fan.fan_speed_calc cfg v ≤ sv := by
    rwa [max_eq_right hsv.le] at hub
  have hnob : ¬ v < cfg.off_below := by
    intro hob
    rw [hsv_def, if_pos hob] at hsv
    exact absurd hsv (by norm_num)
  rw [hsv_def, if_neg hnob] at hfs_le hsv
  rcases h4 with h4 | h4
  · rw [h4, scaled_speed_zero] at hsv
    exact absurd hsv (by norm_num)
  · by_cases hp : cfg.pwm_fan
    · rw [Fan.scaled_speed, if_pos hp] at hfs_le
      linarith
    · rw [Fan.scaled_speed, if_neg hp] at hfs_le hsv
      simp only at hfs_le hsv
      by_cases hlow : 1/5 + 4/5 * v ≤ 1/5
      · rw [if_pos hlow] at hsv
        exact absurd hsv (by norm_num)
      · rw [if_neg hlow] at hfs_le
        push_neg at hlow
        linarith

theorem kick_applies_iff (cfg : FanConfig) (l v : ℚ)
    (hks : 0 ≤ cfg.kick_start_time) :
    Fan.kick_applies cfg l (Fan.fan_speed_calc cfg v) ↔
      (0 < Fan.fan_speed_calc cfg v ∧ Fan.fan_speed_calc cfg v < cfg.max_power ∧
        0 < cfg.kick_start_time ∧
        (l = 0 ∨ Fan.fan_speed_calc cfg v - l > 1/2)) := by
  have h0 := fan_speed_calc_nonneg cfg v
  unfold Fan.kick_applies
  constructor
  · rintro ⟨a, b, c, d⟩
    exact ⟨lt_of_le_of_ne h0 (Ne.symm a), b, lt_of_le_of_ne hks (Ne.symm c), d⟩
  · rintro ⟨a, b, c, d⟩
    exact ⟨a.ne.symm, b, c.ne.symm, d⟩

theorem set_speed_pwm_count (cfg : FanConfig) (s : FanState) (pt v : ℚ)
    (hne : v ≠ s.last_fan_value) :
    ((Fan.set_speed cfg s pt v).2.filter Cmd.isPwm).length =
      if Fan.kick_applies cfg s.last_fan_value (Fan.fan_speed_calc cfg v) then 2 else 1 := by
  by_cases hk : Fan.kick_applies cfg s.last_fan_value (Fan.fan_speed_calc cfg v) <;>
    simp only [Fan.set_speed, hne, hk, if_true, if_false, if_neg, if_pos,
      not_false_eq_true] <;> split_ifs <;> simp [Cmd.isPwm]

/-! ## Claim C1 -/

/-- Claim C1, counterexample: with an enable pin configured, a single
`set_speed` call from duty `0` to duty `0.3` schedules the digital
enable command and the kick-start pulse at the same time, so two
consecutively emitted hardware commands are not `FAN_MIN_TIME` apart. -/
theorem fan_min_time_counterexample :
    ¬ List.Chain' (fun c1 c2 => c1.time + FAN_MIN_TIME ≤ c2.time)
      (Fan.set_speed ⟨1, 1/5, 0, true⟩ ⟨0, 0⟩ 5 (3/10)).2 := by
  norm_num [Fan.set_speed, Fan.fan_speed_calc, Fan.scaled_speed, Fan.kick_applies,
    FAN_MIN_TIME, max_def, min_def, Cmd.time, List.chain'_cons]

/-- Claim C1 (amended): the `FAN_MIN_TIME` spacing invariant holds
between hardware commands of *different* `set_speed` calls: for any
sequence of calls, every command emitted by a later call is scheduled
at least `FAN_MIN_TIME` after every command of any earlier call.
(Within a single call, the enable command and the kick-start pulse
share the adjusted scheduled time, and the final duty command follows
the kick-start pulse only by `kick_start_time`.) -/
theorem fan_min_time_between_calls (cfg : FanConfig) (s : FanState) (reqs : List (ℚ × ℚ))
    (hks : 0 ≤ cfg.kick_start_time) :
    List.Pairwise (fun g1 g2 => ∀ c1 ∈ g1, ∀ c2 ∈ g2, c1.time + FAN_MIN_TIME ≤ c2.time)
      (Fan.runCalls cfg s reqs).2 := by
  induction reqs generalizing s with
  | nil => simp [Fan.runCalls]
  | cons req rest ih =>
    obtain ⟨t, v⟩ := req
    simp only [Fan.runCalls, List.pairwise_cons]
    constructor
    · intro g hg c1 hc1 c2 hc2
      have hub := set_speed_time_ub cfg s t v hks c1 hc1
      have hlb := runCalls_time_lb cfg rest (Fan.set_speed cfg s t v).1 hks g hg c2 hc2
      linarith
    · exact ih (Fan.set_speed cfg s t v).1

/-- Witness for claim C1's amended theorem at a concrete trace. -/
theorem fan_min_time_between_calls_witness :
    List.Pairwise (fun g1 g2 => ∀ c1 ∈ g1, ∀ c2 ∈ g2, c1.time + FAN_MIN_TIME ≤ c2.time)
      (Fan.runCalls ⟨1, 1/5, 0, true⟩ ⟨0, 0⟩ [(1, 3/10), (2, 1/2)]).2 :=
  fan_min_time_between_calls ⟨1, 1/5, 0, true⟩ ⟨0, 0⟩ [(1, 3/10), (2, 1/2)] (by norm_num)

/-! ## Claim C3 -/

/-- Claim C3, counterexample: a first call that takes the kick-start
branch emits two hardware commands, after which the identical second
call is a no-op --- so the pair of calls issues two commands in total,
not exactly one. -/
theorem fan_set_speed_idempotent_counterexample :
    ((Fan.set_speed ⟨1, 1/5, 0, false⟩ ⟨0, 0⟩ 1 (3/10)).2 ++
      (Fan.set_speed ⟨1, 1/5, 0, false⟩
        (Fan.set_speed ⟨1, 1/5, 0, false⟩ ⟨0, 0⟩ 1 (3/10)).1 1 (3/10)).2).length = 2 ∧
    (2 : ℕ) ≠ 1 := by
  norm_num [Fan.set_speed, Fan.fan_speed_calc, Fan.scaled_speed, Fan.kick_applies,
    FAN_MIN_TIME, max_def, min_def]

/-- Claim C3 (amended): calling `set_speed(t, v)` twice with identical
`v` issues only the hardware commands of the first call (at most
three); the second call is a no-op, leaving `last_fan_value`,
`last_fan_time` and the emitted command stream unchanged. -/
theorem fan_set_speed_second_call_noop (cfg : FanConfig) (s : FanState) (t v : ℚ) :
    Fan.set_speed cfg (Fan.set_speed cfg s t v).1 t v = ((Fan.set_speed cfg s t v).1, []) ∧
    (Fan.set_speed cfg s t v).2.length ≤ 3 := by
  constructor
  · have hlast := set_speed_last_value cfg s t v
    rw [Fan.set_speed]
    simp [hlast]
  · by_cases h : v = s.last_fan_value
    · simp [Fan.set_speed, h]
    · by_cases hk : Fan.kick_applies cfg s.last_fan_value (Fan.fan_speed_calc cfg v) <;>
        simp only [Fan.set_speed, h, hk, if_true, if_false, if_neg, if_pos,
          not_false_eq_true] <;> split_ifs <;> simp

/-! ## Claim C2 -/

/-- Claim C2: for `duty ∈ [0,1]` on a 3-wire actuator (`pwm_fan` false)
with `off_below = 0`, the hardware duty is `0` when
`0.2 + 0.8*duty ≤ 0.2` and `clamp((0.2 + 0.8*duty) * max_power, 0,
max_power)` otherwise; on a 4-wire actuator the requested duty passes
through the rescaling step unchanged; and an emitting call's final PWM
command carries exactly this hardware duty. -/
theorem fan_three_wire_duty (cfg : FanConfig) (s : FanState) (pt duty : ℚ)
    (hm0 : 0 < cfg.max_power) (hd0 : 0 ≤ duty) (hd1 : duty ≤ 1) :
    (cfg.pwm_fan = false → cfg.off_below = 0 →
      Fan.fan_speed_calc cfg duty =
        if 1/5 + 4/5 * duty ≤ 1/5 then 0
        else max 0 (min cfg.max_power ((1/5 + 4/5 * duty) * cfg.max_power)))
    ∧ (cfg.pwm_fan = true → Fan.scaled_speed cfg duty = duty)
    ∧ (duty ≠ s.last_fan_value →
        ∃ pre, (Fan.set_speed cfg s pt duty).2 =
          pre ++ [Cmd.pwm (Fan.set_speed cfg s pt duty).1.last_fan_time
            (Fan.fan_speed_calc cfg duty)]) := by
  refine ⟨?_, ?_, ?_⟩
  · intro h3 hob
    simp only [Fan.fan_speed_calc, Fan.scaled_speed, h3, if_false, hob,
      not_lt.mpr hd0, Bool.false_eq_true]
    split_ifs with h
    · rw [zero_mul, min_eq_right hm0.le, max_self]
    · rfl
  · intro h4
    simp [Fan.scaled_speed, h4]
  · intro hne
    by_cases hk : Fan.kick_applies cfg s.last_fan_value (Fan.fan_speed_calc cfg duty)
    · simp only [Fan.set_speed, hne, hk, if_true, if_false, if_neg, if_pos,
        not_false_eq_true]
      exact append_pair_last _ _ _
    · simp only [Fan.set_speed, hne, hk, if_true, if_false, if_neg, if_pos,
        not_false_eq_true]
      exact ⟨_, rfl⟩

/-- Witness for claim C2's theorem: on a 3-wire fan with
`max_power = 1`, a requested duty of `0.3` maps to hardware duty
`0.2 + 0.8*0.3 = 0.44`. -/
theorem fan_three_wire_duty_witness :
    Fan.fan_speed_calc ⟨1, 1/10, 0, false⟩ (3/10) = 11/25 := by
  have h := (fan_three_wire_duty ⟨1, 1/10, 0, false⟩ ⟨1, 0⟩ 1 (3/10)
    (by norm_num) (by norm_num) (by norm_num)).1 rfl rfl
  rw [h]
  norm_num [max_def, min_def]

/-! ## Claim C4 -/

/-- Claim C4: with `kick_start_time = 0.2` and `max_power = 1.0`, a
(4-wire) actuator at duty `0` asked for duty `0.3` emits a full-power
PWM command at the adjusted scheduled time followed `0.2` seconds later
by a `0.3` PWM command; and in general a call emits a kick-start pulse
(two PWM commands instead of one) exactly when the effective duty is
`> 0` and `< max_power`, `kick_start_time > 0`, and either
`last_value = 0` or `effective - last_value > 0.5`. -/
theorem fan_kick_start :
    (Fan.set_speed ⟨1, 1/5, 0, true⟩ ⟨0, 0⟩ 1 (3/10) =
      (⟨3/10, 6/5⟩, [Cmd.digital 1 true, Cmd.pwm 1 1, Cmd.pwm (6/5) (3/10)]))
    ∧ ∀ (cfg : FanConfig) (s : FanState) (pt v : ℚ),
        0 < cfg.max_power → cfg.max_power ≤ 1 → 0 ≤ cfg.kick_start_time →
        ((((Fan.set_speed cfg s pt v).2.filter Cmd.isPwm).length = 2) ↔
          (0 < Fan.fan_speed_calc cfg v ∧ Fan.fan_speed_calc cfg v < cfg.max_power ∧
            0 < cfg.kick_start_time ∧
            (s.last_fan_value = 0 ∨ Fan.fan_speed_calc cfg v - s.last_fan_value > 1/2))) := by
  constructor
  · norm_num [Fan.set_speed, Fan.fan_speed_calc, Fan.scaled_speed, Fan.kick_applies,
      FAN_MIN_TIME, max_def, min_def]
  · intro cfg s pt v hm0 hm1 hks
    by_cases hv : v = s.last_fan_value
    · constructor
      · intro h
        simp [Fan.set_speed, hv] at h
      · rintro ⟨h1, h2, h3, h4⟩
        rw [← hv] at h4
        exact (kick_impossible_same_value cfg v hm0 hm1 ⟨h1, h2, h3, h4⟩).elim
    · rw [set_speed_pwm_count cfg s pt v hv]
      split_ifs with hk
      · rw [kick_applies_iff cfg s.last_fan_value v hks] at hk
        exact iff_of_true rfl hk
      · rw [kick_applies_iff cfg s.last_fan_value v hks] at hk
        exact iff_of_false (by norm_num) hk

/-- Witness for claim C4's theorem: the kick-start scenario of the
claim does emit exactly two PWM commands. -/
theorem fan_kick_start_witness :
    (((Fan.set_speed ⟨1, 1/5, 0, true⟩ ⟨0, 0⟩ 1 (3/10)).2.filter Cmd.isPwm).length = 2) := by
  rw [fan_kick_start.2 ⟨1, 1/5, 0, true⟩ ⟨0, 0⟩ 1 (3/10)
    (by norm_num) (by norm_num) (by norm_num)]
  norm_num [Fan.fan_speed_calc, Fan.scaled_speed, max_def, min_def]

/-! ## Helper lemmas about `FanTachometer` -/

theorem tach_run_stalled (cfg : TachConfig) (t0 : ℚ) (ht0 : t0 ≠ 0)
    (rest : List (ℚ × ℚ × ℚ))
    (hrest : ∀ x ∈ rest, x.2.1 = 0 ∧ 0 < x.2.2) :
    FanTachometer.run cfg (some t0) rest =
      (some t0,
        (rest.map (fun x => x.1)).filter
          (fun t => decide (t - t0 > cfg.tach_loss_interval))) := by
  induction rest with
  | nil => simp [FanTachometer.run]
  | cons x rest ih =>
    obtain ⟨e, f, v⟩ := x
    obtain ⟨hf, hv⟩ := hrest _ (List.mem_cons_self _ _)
    simp only at hf hv
    subst hf
    have hstep : FanTachometer.sample cfg (some t0) e 0 v =
        (some t0, decide (e - t0 > cfg.tach_loss_interval)) := by
      have hrpm : (0 : ℚ) * 30 / (cfg.ppr : ℚ) = 0 := by
        rw [zero_mul, zero_div]
      have htruthy : pyTruthy (some t0) = true := by
        simp [pyTruthy, bne_iff_ne, ht0]
      simp only [FanTachometer.sample, hrpm, lt_irrefl, false_and, if_false,
        if_neg, htruthy, Bool.not_true, Bool.false_eq_true, if_pos, hv, and_true,
        true_and, not_false_eq_true]
      split_ifs with h1 <;> simp_all
    simp only [FanTachometer.run, hstep, ih (fun x hx => hrest x (List.mem_cons_of_mem _ hx))]
    simp only [List.map_cons, List.filter_cons]
    split_ifs with h <;> simp [h]

theorem sample_preserves_wf (cfg : TachConfig) (loss : Option ℚ) (e f v : ℚ)
    (he : e ≠ 0) (h : lossWF loss) :
    lossWF (FanTachometer.sample cfg loss e f v).1 := by
  simp only [FanTachometer.sample]
  split_ifs <;>
    first
      | exact Or.inr ⟨e, he, rfl⟩
      | exact Or.inl rfl
      | exact h

theorem sample_clears_on_rpm (cfg : TachConfig) (loss : Option ℚ) (e f v : ℚ)
    (h : lossWF loss) (hrpm : 0 < f * 30 / (cfg.ppr : ℚ)) :
    (FanTachometer.sample cfg loss e f v).1 = none := by
  have ht1 : (if f * 30 / (cfg.ppr : ℚ) > 0 ∧ pyTruthy loss then none else loss) = none := by
    rcases h with h | ⟨x, hx, h⟩
    · simp [h]
    · subst h
      simp [pyTruthy, bne_iff_ne, hx, hrpm]
  simp only [FanTachometer.sample, ht1]
  have hne : ¬ (f * 30 / (cfg.ppr : ℚ) = 0 ∧ v > 0) := by
    rintro ⟨h0, _⟩
    rw [h0] at hrpm
    exact absurd hrpm (by norm_num)
  rw [if_neg hne]

theorem run_wf (cfg : TachConfig) (samples : List (ℚ × ℚ × ℚ)) :
    ∀ loss : Option ℚ, lossWF loss → (∀ x ∈ samples, x.1 ≠ 0) →
      lossWF (FanTachometer.run cfg loss samples).1 := by
  induction samples with
  | nil => intro loss h _; simpa [FanTachometer.run] using h
  | cons x rest ih =>
    intro loss h hts
    obtain ⟨e, f, v⟩ := x
    simp only [FanTachometer.run]
    exact ih _ (sample_preserves_wf cfg loss e f v (hts _ (List.mem_cons_self _ _)) h)
      (fun y hy => hts y (List.mem_cons_of_mem _ hy))

theorem run_append_fst (cfg : TachConfig) (l1 l2 : List (ℚ × ℚ × ℚ)) :
    ∀ loss : Option ℚ,
      (FanTachometer.run cfg loss (l1 ++ l2)).1 =
        (FanTachometer.run cfg (FanTachometer.run cfg loss l1).1 l2).1 := by
  induction l1 with
  | nil => intro loss; simp [FanTachometer.run]
  | cons x rest ih =>
    intro loss
    obtain ⟨e, f, v⟩ := x
    simp only [List.cons_append, FanTachometer.run]
    exact ih _

/-! ## Claim C5 -/

/-- Claim C5, counterexample: with `tach_loss_interval = 3`, zero-RPM
samples at times `1, 5, 9` (fan commanded on throughout) invoke the
fault action at time `5` *and again* at time `9` --- two invocations in
one stall, not exactly one. -/
theorem tach_fault_exactly_once_counterexample :
    (FanTachometer.run ⟨2, 3, 3⟩ none [(1, 0, 1), (5, 0, 1), (9, 0, 1)]).2 = [5, 9] ∧
    ([5, 9] : List ℚ).length ≠ 1 := by
  norm_num [FanTachometer.run, FanTachometer.sample, pyTruthy]

/-- Claim C5 (amended): in a stall (first zero-RPM sample at nonzero
time `t0` with the fan commanded on, followed by further zero-RPM
samples with the fan commanded on), the fault action is invoked at
*every* later sample whose time strictly exceeds
`t0 + tach_loss_interval` --- not exactly once, and not at a sample
that merely reaches the boundary. -/
theorem tach_fault_every_late_sample (cfg : TachConfig) (t0 v0 : ℚ)
    (rest : List (ℚ × ℚ × ℚ)) (ht0 : t0 ≠ 0) (hv0 : 0 < v0)
    (hrest : ∀ x ∈ rest, x.2.1 = 0 ∧ 0 < x.2.2) :
    FanTachometer.run cfg none ((t0, 0, v0) :: rest) =
      (some t0,
        (rest.map (fun x => x.1)).filter
          (fun t => decide (t - t0 > cfg.tach_loss_interval))) := by
  have hstep : FanTachometer.sample cfg none t0 0 v0 = (some t0, false) := by
    have hrpm : (0 : ℚ) * 30 / (cfg.ppr : ℚ) = 0 := by rw [zero_mul, zero_div]
    simp [FanTachometer.sample, hrpm, pyTruthy, hv0]
  simp only [FanTachometer.run, hstep]
  rw [tach_run_stalled cfg t0 ht0 rest hrest]
  simp

/-- Witness for claim C5's amended theorem: interval `3`, stall start
at `1`, samples at `4` (exactly at the boundary: no invocation) and `9`
(past the boundary: invocation). -/
theorem tach_fault_every_late_sample_witness :
    FanTachometer.run ⟨2, 3, 3⟩ none [(1, 0, 1), (4, 0, 1), (9, 0, 1)] =
      (some 1,
        (([((4:ℚ), (0:ℚ), (1:ℚ)), (9, 0, 1)]).map (fun x => x.1)).filter
          (fun t => decide (t - 1 > (3:ℚ)))) :=
  tach_fault_every_late_sample ⟨2, 3, 3⟩ 1 1 [(4, 0, 1), (9, 0, 1)] (by norm_num)
    (by norm_num) (by intro x hx; fin_cases hx <;> exact ⟨rfl, by norm_num⟩)

/-! ## Claim C6 -/

/-- Claim C6: the code contradicts the warn-once policy:
`warning_issued` is initialized `False` and never assigned, so with
`warning_repeat_interval = 0` the early-return guard is dead and
`FanTachometer.warning` emits (and updates `last_warning_time`) on
*every* invocation --- here at time `5` and again at time `6`. -/
theorem warning_repeat_zero_bug :
    (FanTachometer.warning ⟨2, 3, 0⟩ ⟨0, false⟩ 5 = (⟨5, false⟩, true)) ∧
    (FanTachometer.warning ⟨2, 3, 0⟩ ⟨5, false⟩ 6 = (⟨6, false⟩, true)) := by
  norm_num [FanTachometer.warning]

/-! ## Claim C7 -/

/-- Claim C7, counterexample: a stall sample at time `1` (fan on) sets
`tach_loss_time`; a following sample with RPM `0` and the fan now
commanded off leaves `tach_loss_time = some 1`, even though the claimed
invariant requires it to be `None` whenever the actuator is off. -/
theorem tach_loss_none_counterexample :
    (FanTachometer.run ⟨2, 3, 3⟩ none [(1, 0, 1), (2, 0, 0)]).1 = some 1 ∧
    (some (1:ℚ) : Option ℚ) ≠ none := by
  refine ⟨?_, by simp⟩
  norm_num [FanTachometer.run, FanTachometer.sample, pyTruthy]

/-- Claim C7 (amended): `tach_loss_time` is `None` after any sample
whose RPM reading is nonzero (positive), for every run started at
initialization whose earlier samples occur at nonzero event times; the
actuator being off does *not* clear it. -/
theorem tach_loss_cleared_on_nonzero_rpm (cfg : TachConfig)
    (samples : List (ℚ × ℚ × ℚ)) (e f v : ℚ)
    (hts : ∀ x ∈ samples, x.1 ≠ 0)
    (hrpm : 0 < f * 30 / (cfg.ppr : ℚ)) :
    (FanTachometer.run cfg none (samples ++ [(e, f, v)])).1 = none := by
  rw [run_append_fst]
  have hwf := run_wf cfg samples none (Or.inl rfl) hts
  simp only [FanTachometer.run]
  exact sample_clears_on_rpm cfg _ e f v hwf hrpm

/-- Witness for claim C7's amended theorem: a stall sample at time `1`
followed by a healthy sample at frequency `60` clears
`tach_loss_time`. -/
theorem tach_loss_cleared_witness :
    (FanTachometer.run ⟨2, 3, 3⟩ none ([(1, 0, 1)] ++ [(2, 60, 1)])).1 = none :=
  tach_loss_cleared_on_nonzero_rpm ⟨2, 3, 3⟩ [(1, 0, 1)] 2 60 1
    (by intro x hx; rw [List.mem_singleton] at hx; subst hx; norm_num)
    (by norm_num)

/-! ## Claim C8 -/

/-- Claim C8, counterexample: a `SET_TEMPERATURE_FAN_TARGET` request
with a valid target `50` but `MIN_SPEED 0.9 > MAX_SPEED 0.5` is
rejected, yet `target_temp` has already been changed from `40` to `50`
--- the state is not left entirely unchanged. -/
theorem cmd_set_target_reject_counterexample :
    ((TemperatureFan.cmd_SET_TEMPERATURE_FAN_TARGET ⟨10, 100, 0, 40, 1, ⟨1, 1/10, 0, false⟩⟩
        ⟨40, 3/10, 1, 0, 0, 0, ⟨0, 0⟩⟩ (some 50) (some (9/10)) (some (1/2))).2.isSome = true) ∧
    ((TemperatureFan.cmd_SET_TEMPERATURE_FAN_TARGET ⟨10, 100, 0, 40, 1, ⟨1, 1/10, 0, false⟩⟩
        ⟨40, 3/10, 1, 0, 0, 0, ⟨0, 0⟩⟩ (some 50) (some (9/10)) (some (1/2))).1.target_temp = 50) ∧
    ((50 : ℚ) ≠ 40) := by
  norm_num [TemperatureFan.cmd_SET_TEMPERATURE_FAN_TARGET, TemperatureFan.set_temp,
    TemperatureFan.set_min_speed, TemperatureFan.set_max_speed]

/-- Claim C8 (amended): a rejected `SET_TEMPERATURE_FAN_TARGET` request
reports the error and never changes `max_speed`, but assignments made
before the failing check persist: the state is entirely unchanged only
when the *target* check itself fails; otherwise `target_temp` has
already been set to the requested target, and `min_speed` is either
unchanged or already set to the requested minimum (the latter exactly
when the failure came from the max-speed range check). -/
theorem cmd_set_target_reject (cfg : TFConfig) (s : TFState)
    (target minA maxA : Option ℚ)
    (herr : (TemperatureFan.cmd_SET_TEMPERATURE_FAN_TARGET cfg s target minA maxA).2.isSome
      = true) :
    ((TemperatureFan.cmd_SET_TEMPERATURE_FAN_TARGET cfg s target minA maxA).1.max_speed
        = s.max_speed)
    ∧ (((TemperatureFan.set_temp cfg s (target.getD cfg.target_temp_conf)).2.isSome = true ∧
        (TemperatureFan.cmd_SET_TEMPERATURE_FAN_TARGET cfg s target minA maxA).1 = s)
      ∨ ((TemperatureFan.set_temp cfg s (target.getD cfg.target_temp_conf)).2 = none ∧
        (TemperatureFan.cmd_SET_TEMPERATURE_FAN_TARGET cfg s target minA maxA).1.target_temp
          = target.getD cfg.target_temp_conf ∧
        ((TemperatureFan.cmd_SET_TEMPERATURE_FAN_TARGET cfg s target minA maxA).1.min_speed
            = s.min_speed ∨
          (TemperatureFan.cmd_SET_TEMPERATURE_FAN_TARGET cfg s target minA maxA).1.min_speed
            = minA.getD s.min_speed))) := by
  by_cases ht : target.getD cfg.target_temp_conf ≠ 0 ∧
      (target.getD cfg.target_temp_conf < cfg.min_temp ∨
        target.getD cfg.target_temp_conf > cfg.max_temp)
  · have hst : TemperatureFan.set_temp cfg s (target.getD cfg.target_temp_conf) =
        (s, some "Requested temperature out of range") := by
      rw [TemperatureFan.set_temp, if_pos ht]
    have hcmd : TemperatureFan.cmd_SET_TEMPERATURE_FAN_TARGET cfg s target minA maxA =
        (s, some "Requested temperature out of range") := by
      simp only [TemperatureFan.cmd_SET_TEMPERATURE_FAN_TARGET]
      rw [hst]
    rw [hcmd, hst]
    exact ⟨rfl, Or.inl ⟨rfl, rfl⟩⟩
  · have hst : TemperatureFan.set_temp cfg s (target.getD cfg.target_temp_conf) =
        (({ s with target_temp := target.getD cfg.target_temp_conf } : TFState), none) := by
      rw [TemperatureFan.set_temp, if_neg ht]
    have hcmd1 : TemperatureFan.cmd_SET_TEMPERATURE_FAN_TARGET cfg s target minA maxA =
        (if minA.getD s.min_speed > maxA.getD s.max_speed then
          (({ s with target_temp := target.getD cfg.target_temp_conf } : TFState),
            some "Requested min speed is greater than max speed")
        else
          match TemperatureFan.set_min_speed
              ({ s with target_temp := target.getD cfg.target_temp_conf } : TFState)
              (minA.getD s.min_speed) with
          | (s2, some e) => (s2, some e)
          | (s2, none) => TemperatureFan.set_max_speed s2 (maxA.getD s.max_speed)) := by
      simp only [TemperatureFan.cmd_SET_TEMPERATURE_FAN_TARGET]
      rw [hst]
    rw [hcmd1, hst]
    by_cases hmm : minA.getD s.min_speed > maxA.getD s.max_speed
    · rw [if_pos hmm]
      exact ⟨rfl, Or.inr ⟨rfl, rfl, Or.inl rfl⟩⟩
    · rw [if_neg hmm]
      by_cases hmn : minA.getD s.min_speed ≠ 0 ∧
          (minA.getD s.min_speed < 0 ∨ minA.getD s.min_speed > 1)
      · have hsmn : TemperatureFan.set_min_speed
            ({ s with target_temp := target.getD cfg.target_temp_conf } : TFState)
            (minA.getD s.min_speed) =
            (({ s with target_temp := target.getD cfg.target_temp_conf } : TFState),
              some "Requested min speed out of range") := by
          rw [TemperatureFan.set_min_speed, if_pos hmn]
        rw [hsmn]
        exact ⟨rfl, Or.inr ⟨rfl, rfl, Or.inl rfl⟩⟩
      · have hsmn : TemperatureFan.set_min_speed
            ({ s with target_temp := target.getD cfg.target_temp_conf } : TFState)
            (minA.getD s.min_speed) =
            (({ s with
                target_temp := target.getD cfg.target_temp_conf,
                min_speed := minA.getD s.min_speed } : TFState), none) := by
          rw [TemperatureFan.set_min_speed, if_neg hmn]
        rw [hsmn]
        by_cases hmx : maxA.getD s.max_speed ≠ 0 ∧
            (maxA.getD s.max_speed < 0 ∨ maxA.getD s.max_speed > 1)
        · have hsmx : TemperatureFan.set_max_speed
              ({ s with
                target_temp := target.getD cfg.target_temp_conf,
                min_speed := minA.getD s.min_speed } : TFState)
              (maxA.getD s.max_speed) =
              (({ s with
                target_temp := target.getD cfg.target_temp_conf,
                min_speed := minA.getD s.min_speed } : TFState),
                some "Requested max speed out of range") := by
            rw [TemperatureFan.set_max_speed, if_pos hmx]
          dsimp only
          rw [hsmx]
          exact ⟨rfl, Or.inr ⟨rfl, rfl, Or.inr rfl⟩⟩
        · have hsmx : TemperatureFan.set_max_speed
              ({ s with
                target_temp := target.getD cfg.target_temp_conf,
                min_speed := minA.getD s.min_speed } : TFState)
              (maxA.getD s.max_speed) =
              (({ s with
                target_temp := target.getD cfg.target_temp_conf,
                min_speed := minA.getD s.min_speed,
                max_speed := maxA.getD s.max_speed } : TFState), none) := by
            rw [TemperatureFan.set_max_speed, if_neg hmx]
          rw [hcmd1, if_neg hmm, hsmn] at herr
          dsimp only at herr
          rw [hsmx] at herr
          exact absurd herr (by simp)

/-- Witness for claim C8's amended theorem at the rejected request of
the counterexample: `max_speed` is unchanged. -/
theorem cmd_set_target_reject_witness :
    (TemperatureFan.cmd_SET_TEMPERATURE_FAN_TARGET ⟨10, 100, 0, 40, 1, ⟨1, 1/10, 0, false⟩⟩
        ⟨40, 3/10, 1, 0, 0, 0, ⟨0, 0⟩⟩ (some 50) (some (9/10)) (some (1/2))).1.max_speed = 1 := by
  have h := cmd_set_target_reject ⟨10, 100, 0, 40, 1, ⟨1, 1/10, 0, false⟩⟩
      ⟨40, 3/10, 1, 0, 0, 0, ⟨0, 0⟩⟩ (some 50) (some (9/10)) (some (1/2))
      (by norm_num [TemperatureFan.cmd_SET_TEMPERATURE_FAN_TARGET, TemperatureFan.set_temp,
        TemperatureFan.set_min_speed, TemperatureFan.set_max_speed])
  exact h.1

/-! ## Claim C9 -/

/-- Claim C9: the PID integral state is committed only when the
unclamped control output `co` equals its bounded value: whenever `co`
exceeds `max_speed` or falls below `0`, the previous integral is
retained unchanged (also trivially in the low-temperature-cutoff
branch, which skips the PID update entirely); when `co` equals the
bounded value on a non-cutoff sample the new clamped integral is
stored; and (given `max_speed ≥ 0`) `co` equals its bounded value
exactly when `0 ≤ co ≤ max_speed`. -/
theorem pid_integral_antiwindup (cfg : TFConfig) (pcfg : PIDConfig) (tf : TFState)
    (s : PIDState) (read_time temp : ℚ) (hms : 0 ≤ tf.max_speed) :
    ((tf.max_speed < ControlPID.co pcfg s tf.target_temp read_time temp ∨
        ControlPID.co pcfg s tf.target_temp read_time temp < 0) →
      (ControlPID.temperature_callback cfg pcfg tf s read_time temp).2.2.prev_temp_integ
        = s.prev_temp_integ)
    ∧ (¬ temp < cfg.min_temp_cutoff →
        ControlPID.co pcfg s tf.target_temp read_time temp =
          ControlPID.bounded_co pcfg s tf.max_speed tf.target_temp read_time temp →
        (ControlPID.temperature_callback cfg pcfg tf s read_time temp).2.2.prev_temp_integ
          = ControlPID.temp_integ pcfg s tf.target_temp read_time temp)
    ∧ ((0 ≤ ControlPID.co pcfg s tf.target_temp read_time temp ∧
         ControlPID.co pcfg s tf.target_temp read_time temp ≤ tf.max_speed) ↔
        ControlPID.co pcfg s tf.target_temp read_time temp =
          ControlPID.bounded_co pcfg s tf.max_speed tf.target_temp read_time temp) := by
  have hiff : (0 ≤ ControlPID.co pcfg s tf.target_temp read_time temp ∧
      ControlPID.co pcfg s tf.target_temp read_time temp ≤ tf.max_speed) ↔
      ControlPID.co pcfg s tf.target_temp read_time temp =
        ControlPID.bounded_co pcfg s tf.max_speed tf.target_temp read_time temp := by
    constructor
    · rintro ⟨h0, h1⟩
      rw [ControlPID.bounded_co, min_eq_right h1, max_eq_right h0]
    · intro h
      constructor
      · rw [h, ControlPID.bounded_co]
        exact le_max_left _ _
      · rw [h, ControlPID.bounded_co]
        exact max_le hms (min_le_left _ _)
  refine ⟨?_, ?_, hiff⟩
  · intro hsat
    by_cases hcut : temp < cfg.min_temp_cutoff
    · simp [ControlPID.temperature_callback, hcut]
    · have hne : ControlPID.co pcfg s tf.target_temp read_time temp ≠
          ControlPID.bounded_co pcfg s tf.max_speed tf.target_temp read_time temp := by
        intro h
        rcases (hiff.mpr h) with ⟨h0, h1⟩
        rcases hsat with hsat | hsat <;> linarith
      simp only [ControlPID.temperature_callback, if_neg hcut]
      rw [if_neg hne]
  · intro hcut heq
    simp only [ControlPID.temperature_callback, if_neg hcut]
    rw [if_pos heq]

/-- Witness for claim C9's theorem: with `Kp = 1`, target `40` and
temperature `20`, the control output `20` is saturated above
`max_speed = 1`, so the integral state (here `0`) is retained. -/
theorem pid_integral_antiwindup_witness :
    (ControlPID.temperature_callback ⟨0, 100, 0, 40, 1, ⟨1, 1/10, 0, false⟩⟩ ⟨1, 0, 0, 2, 0⟩
        ⟨40, 3/10, 1, 0, 0, 0, ⟨0, 0⟩⟩ ⟨25, 0, 0, 0⟩ 10 20).2.2.prev_temp_integ = 0 := by
  have h := (pid_integral_antiwindup ⟨0, 100, 0, 40, 1, ⟨1, 1/10, 0, false⟩⟩ ⟨1, 0, 0, 2, 0⟩
      ⟨40, 3/10, 1, 0, 0, 0, ⟨0, 0⟩⟩ ⟨25, 0, 0, 0⟩ 10 20 (by norm_num)).1
      (Or.inl (by norm_num [ControlPID.co, ControlPID.temp_integ, ControlPID.temp_deriv,
        max_def, min_def]))
  exact h

/-! ## Claim C10 -/

theorem tf_set_speed_target (cfg : TFConfig) (s : TFState) (t v : ℚ) :
    (TemperatureFan.set_speed cfg s t v).1.target_temp = s.target_temp := by
  simp only [TemperatureFan.set_speed]
  split_ifs <;> rfl

theorem slope_linear_target (c : SlopeConfig) (cfg : TFConfig) (tf : TFState)
    (t tmp : ℚ) :
    (ControlSlope.linear c cfg tf t tmp).1.target_temp = tf.target_temp := by
  simp only [ControlSlope.linear]
  split_ifs <;> exact tf_set_speed_target ..

theorem slope_exponential_target (c : SlopeConfig) (cfg : TFConfig) (tf : TFState)
    (t tmp : ℚ) :
    (ControlSlope.exponential c cfg tf t tmp).1.target_temp = tf.target_temp := by
  simp only [ControlSlope.exponential]
  split_ifs <;> exact tf_set_speed_target ..

/-- Claim C10: on a Slope-controller sample with temperature strictly
above `min_temp_cutoff + 0.5`, the callback overwrites the public
`target_temp` with `trunc(clamp(temp, min_temp, 0.8*max_temp) * 10) / 10`
(with the controller's resolved `min_temp` bound) before evaluating the
mapping, and `get_status` then reports exactly this value as the
target. -/
theorem slope_overwrites_target (cfg : TFConfig) (min_speed0 : ℚ) (algo : SlopeKind)
    (tf : TFState) (read_time temp : ℚ)
    (h : cfg.min_temp_cutoff + 1/2 < temp) :
    ((TemperatureFan.temperature_callback_slope (ControlSlope.init cfg min_speed0 algo) cfg
        tf read_time temp).1.target_temp =
      (pytrunc (max (ControlSlope.init cfg min_speed0 algo).min_temp
        (min temp (cfg.max_temp * MAX_TEMP_BUFFER)) * 10) : ℚ) / 10)
    ∧ ((TemperatureFan.get_status
        (TemperatureFan.temperature_callback_slope (ControlSlope.init cfg min_speed0 algo) cfg
          tf read_time temp).1).target =
      (pytrunc (max (ControlSlope.init cfg min_speed0 algo).min_temp
        (min temp (cfg.max_temp * MAX_TEMP_BUFFER)) * 10) : ℚ) / 10) := by
  have hmarg : (ControlSlope.init cfg min_speed0 algo).hysteresis_margin = 1/2 := rfl
  have hmax : (ControlSlope.init cfg min_speed0 algo).max_temp =
      cfg.max_temp * MAX_TEMP_BUFFER := rfl
  have hc1 : ¬ temp < cfg.min_temp_cutoff -
      (ControlSlope.init cfg min_speed0 algo).hysteresis_margin := by
    rw [hmarg]; linarith
  have hc2 : temp > cfg.min_temp_cutoff +
      (ControlSlope.init cfg min_speed0 algo).hysteresis_margin := by
    rw [hmarg]; linarith
  have hmain : (TemperatureFan.temperature_callback_slope
      (ControlSlope.init cfg min_speed0 algo) cfg tf read_time temp).1.target_temp =
      (pytrunc (max (ControlSlope.init cfg min_speed0 algo).min_temp
        (min temp (cfg.max_temp * MAX_TEMP_BUFFER)) * 10) : ℚ) / 10 := by
    rw [TemperatureFan.temperature_callback_slope, ControlSlope.temperature_callback,
      if_neg hc1, if_pos hc2, ← hmax]
    cases algo
    · exact slope_linear_target _ _ _ _ _
    · exact slope_exponential_target _ _ _ _ _
  exact ⟨hmain, hmain⟩

/-- Witness for claim C10's theorem: cutoff `30`, configured range
`[10, 100]` (resolved slope bound `30`, buffered maximum `80`),
temperature `50`: the target becomes `trunc(50*10)/10 = 50`. -/
theorem slope_overwrites_target_witness :
    (TemperatureFan.temperature_callback_slope
        (ControlSlope.init ⟨10, 100, 30, 40, 1, ⟨1, 1/10, 0, false⟩⟩ (3/10) SlopeKind.linear)
        ⟨10, 100, 30, 40, 1, ⟨1, 1/10, 0, false⟩⟩
        ⟨40, 3/10, 1, 0, 0, 0, ⟨0, 0⟩⟩ 1 50).1.target_temp = 50 := by
  have h := (slope_overwrites_target ⟨10, 100, 30, 40, 1, ⟨1, 1/10, 0, false⟩⟩ (3/10)
      SlopeKind.linear ⟨40, 3/10, 1, 0, 0, 0, ⟨0, 0⟩⟩ 1 50 (by norm_num)).1
  rw [h]
  norm_num [ControlSlope.init, AMBIENT_TEMP, MAX_TEMP_BUFFER, pytrunc, max_def, min_def]

end KlipperFan
